import Mathlib

/-!
Verification of the AutoKube AI backend (src/backend/main.py), a small
HTTP service with four handlers: `root`, `health_check`, `diagnose_issues`
and `get_issues`.  The Python source is shallowly embedded: Pydantic
models become structures, the keyword-scanning loop of `diagnose_issues`
becomes a recursive function over the list of log lines, `random.choice`
is modelled by passing the random source as an explicit index, and
`time.sleep` / `print` side effects (which return no value and influence
no returned value) are dropped from the value-level embedding.
Floating-point confidence literals are embedded as rationals.
-/

/-- The `details` mapping carried by every record of `SAMPLE_ISSUES`
(keys `affected_pods`, `root_cause`, `severity`). -/
structure IssueDetails where
  affected_pods : List String
  root_cause : String
  severity : String
deriving DecidableEq, Repr

/-- One record of the `SAMPLE_ISSUES` catalog; also the shape of the
`DiagnoseResponse` Pydantic model (whose `details` is always populated
here). -/
structure IssueRecord where
  issue : String
  confidence : ℚ
  suggestion : String
  details : IssueDetails
deriving DecidableEq, Repr

/-- Prefix test on character lists (used to embed Python's substring
operator). -/
def charsPrefix : List Char → List Char → Bool
  | [], _ => true
  | _ :: _, [] => false
  | a :: as, b :: bs => a == b && charsPrefix as bs

/-- Substring search on character lists. -/
def charsContains (pat : List Char) : List Char → Bool
  | [] => pat.isEmpty
  | c :: cs => charsPrefix pat (c :: cs) || charsContains pat cs

/-- Embedding of Python's case-sensitive substring containment
`pat in s`. -/
def strContains (s pat : String) : Bool :=
  charsContains pat.toList s.toList

/-- `SAMPLE_ISSUES[0]` in the source. -/
def issue_crashloop : IssueRecord :=
  { issue := "CrashLoopBackOff"
    confidence := 0.92
    suggestion := "Restart the pod or check livenessProbe configuration"
    details :=
      { affected_pods := ["frontend-app-7d9f4b8f9c-2x4z5"]
        root_cause := "Application is failing to start due to missing configuration"
        severity := "high" } }

/-- `SAMPLE_ISSUES[1]` in the source. -/
def issue_imagepull : IssueRecord :=
  { issue := "ImagePullBackOff"
    confidence := 0.89
    suggestion := "Verify image name and ensure pull secrets are configured correctly"
    details :=
      { affected_pods := ["backend-api-5c8d7f6b4d-3y6x7"]
        root_cause := "Container image not found in registry"
        severity := "medium" } }

/-- `SAMPLE_ISSUES[2]` in the source. -/
def issue_oomkilled : IssueRecord :=
  { issue := "OOMKilled"
    confidence := 0.95
    suggestion := "Increase memory limits for the container"
    details :=
      { affected_pods := ["database-0"]
        root_cause := "Container exceeded memory limits"
        severity := "critical" } }

/-- `SAMPLE_ISSUES[3]` in the source. -/
def issue_netpol : IssueRecord :=
  { issue := "NetworkPolicyBlocked"
    confidence := 0.87
    suggestion := "Update network policy to allow required traffic"
    details :=
      { affected_pods := ["auth-service-6b9c5d4e3f-4z7x8"]
        root_cause := "Network policy is blocking required connections"
        severity := "high" } }

/-- `SAMPLE_ISSUES[4]` in the source. -/
def issue_unschedulable : IssueRecord :=
  { issue := "PodUnschedulable"
    confidence := 0.91
    suggestion := "Check node resources or adjust pod resource requests"
    details :=
      { affected_pods := ["analytics-job-9e8d7c6b5a"]
        root_cause := "Insufficient resources available on nodes"
        severity := "medium" } }

/-- The module-level catalog `SAMPLE_ISSUES` of the source. -/
def SAMPLE_ISSUES : List IssueRecord :=
  [issue_crashloop, issue_imagepull, issue_oomkilled, issue_netpol,
   issue_unschedulable]

/-- Arbitrary JSON values (`Any` in the Python type hints). -/
inductive Json where
  | str (s : String)
  | num (n : Int)
  | bool (b : Bool)
  | null
  | arr (xs : List Json)
  | obj (fields : List (String × Json))

/-- The `DiagnoseRequest` Pydantic model: `logs: List[str]`,
`namespace: Optional[str] = "default"`,
`context: Optional[Dict[str, Any]] = None`. -/
structure DiagnoseRequest where
  logs : List String
  «namespace» : Option String := some "default"
  context : Option (List (String × Json)) := none

/-- Return value of the `root` handler. -/
structure RootResponse where
  message : String
deriving DecidableEq, Repr

/-- Return value of the `health_check` handler. -/
structure HealthResponse where
  status : String
  version : String
deriving DecidableEq, Repr

/-- The `root` handler (`GET /`); nullary in the source, embedded as a
function of `Unit` so that distinct invocations can be talked about. -/
def root (_ : Unit) : RootResponse :=
  { message := "AutoKube AI Backend is running" }

/-- The `health_check` handler (`GET /health`). -/
def health_check (_ : Unit) : HealthResponse :=
  { status := "healthy", version := "1.0.0" }

/-- The `for log in request.logs` loop of `diagnose_issues`: each line is
tested with the `if`/`elif` chain of the five trigger keywords, and the
record of the first keyword matched on the first matching line is
returned; `none` when the loop falls through. -/
def scan_logs : List String → Option IssueRecord
  | [] => none
  | log :: rest =>
    if strContains log "CrashLoopBackOff" then some issue_crashloop
    else if strContains log "ImagePull" then some issue_imagepull
    else if strContains log "OOMKilled" then some issue_oomkilled
    else if strContains log "NetworkPolicy" then some issue_netpol
    else if strContains log "Unschedulable" then some issue_unschedulable
    else scan_logs rest

/-- The `diagnose_issues` handler (`POST /api/diagnose`).  The random
source used by `random.choice(SAMPLE_ISSUES)` is made an explicit input
`rand`, an index into the catalog drawn uniformly; the guard
`if request.logs:` and the scanning loop are as in the source.  The
`time.sleep(0.5)` delay and the two `print` diagnostics return no value
and are not part of the value-level embedding. -/
def diagnose_issues (request : DiagnoseRequest)
    (rand : Fin SAMPLE_ISSUES.length) : IssueRecord :=
  match (if request.logs.isEmpty then none else scan_logs request.logs) with
  | some r => r
  | none => SAMPLE_ISSUES.get rand

/-- One entry of the hardcoded list returned by `get_issues`. -/
structure HistoricalIssueEntry where
  id : String
  «namespace» : String
  resource : String
  issue : String
  detected : String
  status : String
  confidence : ℚ
deriving DecidableEq, Repr

/-- Return value of the `get_issues` handler. -/
structure IssuesResponse where
  issues : List HistoricalIssueEntry
deriving DecidableEq, Repr

/-- The `get_issues` handler (`GET /api/issues`): a hardcoded
three-entry list. -/
def get_issues (_ : Unit) : IssuesResponse :=
  { issues :=
      [ { id := "issue-001"
          «namespace» := "production"
          resource := "deployment/frontend"
          issue := "CrashLoopBackOff"
          detected := "2025-01-15T10:30:15Z"
          status := "remediated"
          confidence := 0.92 }
      , { id := "issue-002"
          «namespace» := "staging"
          resource := "pod/backend-api-5c8d7f6b4d-3y6x7"
          issue := "ImagePullBackOff"
          detected := "2025-01-15T09:45:22Z"
          status := "pending"
          confidence := 0.89 }
      , { id := "issue-003"
          «namespace» := "production"
          resource := "statefulset/database"
          issue := "OOMKilled"
          detected := "2025-01-15T08:12:05Z"
          status := "remediated"
          confidence := 0.95 } ] }

/-- Disjunction of the five keyword tests applied by the `if`/`elif`
chain of `diagnose_issues` to a single log line. -/
def line_matches (log : String) : Bool :=
  strContains log "CrashLoopBackOff" || strContains log "ImagePull" ||
  strContains log "OOMKilled" || strContains log "NetworkPolicy" ||
  strContains log "Unschedulable"

/-- The spec's "fixed ordered list of trigger keywords", each paired
with the issue record it maps to. -/
def KEYWORD_RECORDS : List (String × IssueRecord) :=
  [("CrashLoopBackOff", issue_crashloop), ("ImagePull", issue_imagepull),
   ("OOMKilled", issue_oomkilled), ("NetworkPolicy", issue_netpol),
   ("Unschedulable", issue_unschedulable)]

/-- Spec-side description of the per-line check: the record of the first
keyword (in keyword order) contained in the line. -/
def spec_line_match (log : String) : Option IssueRecord :=
  (KEYWORD_RECORDS.find? (fun p => strContains log p.1)).map Prod.snd

/-- Spec-side description of the whole scan: line-major, keyword-minor
precedence — the per-line check applied to the first line on which it
succeeds. -/
def spec_first_match (logs : List String) : Option IssueRecord :=
  logs.findSome? spec_line_match

/-- Modelled from the spec: decoding of the `logs: List[str]` field.
The request-body validation itself is performed by the web framework
against the `DiagnoseRequest` schema and is not code under `src/`; per
the spec a value is accepted exactly when it is an array of strings. -/
def decode_logs : Json → Option (List String)
  | Json.arr xs => xs.mapM (fun j => match j with
      | Json.str s => some s
      | _ => none)
  | _ => none

/-- Modelled from the spec: decoding of the optional
`namespace: Optional[str] = "default"` field (absent defaults to
`"default"`, `null` gives no namespace, a string is taken verbatim,
anything else is a type error). -/
def decode_namespace : Option Json → Option (Option String)
  | none => some (some "default")
  | some Json.null => some none
  | some (Json.str s) => some (some s)
  | some _ => none

/-- Modelled from the spec: decoding of the optional open-ended
`context: Optional[Dict[str, Any]]` mapping (absent or `null` gives no
context, an object is taken verbatim, anything else is a type error). -/
def decode_context : Option Json → Option (Option (List (String × Json)))
  | none => some none
  | some Json.null => some none
  | some (Json.obj fields) => some (some fields)
  | some _ => none

/-- Modelled from the spec: schema validation of a `POST /api/diagnose`
body into a `DiagnoseRequest`, as performed at the service boundary by
the framework (not code under `src/`): a missing or ill-typed required
`logs` field, a non-object body, or an ill-typed optional field is a
validation error; nothing is substituted for a missing `logs`. -/
def parse_diagnose_request (body : Json) : Except String DiagnoseRequest :=
  match body with
  | Json.obj fields =>
    match fields.lookup "logs" with
    | none => Except.error "field required: logs"
    | some lj =>
      match decode_logs lj with
      | none => Except.error "type error: logs"
      | some logs =>
        match decode_namespace (fields.lookup "namespace") with
        | none => Except.error "type error: namespace"
        | some ns =>
          match decode_context (fields.lookup "context") with
          | none => Except.error "type error: context"
          | some ctx => Except.ok { logs := logs, «namespace» := ns, context := ctx }
  | _ => Except.error "value is not a valid dict"

/-- Outcome of a `POST /api/diagnose` exchange: a 2xx response carrying
an issue record, or a 4xx request-validation error with a structured
error body. -/
inductive HttpResult where
  | success (record : IssueRecord)
  | validationError (detail : String)
deriving DecidableEq

/-- The `POST /api/diagnose` boundary: the body is decoded against the
`DiagnoseRequest` schema first; only on success does `diagnose_issues`
run. -/
def handle_diagnose (body : Json) (rand : Fin SAMPLE_ISSUES.length) :
    HttpResult :=
  match parse_diagnose_request body with
  | Except.error e => HttpResult.validationError e
  | Except.ok req => HttpResult.success (diagnose_issues req rand)

/-- Embedding of `random.choice(seq)` with every fallible step explicit:
Python raises `IndexError` on an empty sequence and otherwise returns
the element at the uniformly drawn index. -/
def random_choiceE (l : List IssueRecord) (rand : Nat) :
    Except String IssueRecord :=
  (l.get? (rand % l.length)).elim (Except.error "IndexError") Except.ok

/-- The scanning loop of `diagnose_issues` with the constant-list
subscripts `SAMPLE_ISSUES[0]` … `SAMPLE_ISSUES[4]` made explicit
fallible lookups (Python raises `IndexError` out of range). -/
def scan_logsE : List String → Except String (Option IssueRecord)
  | [] => Except.ok none
  | log :: rest =>
    if strContains log "CrashLoopBackOff" then
      (SAMPLE_ISSUES.get? 0).elim (Except.error "IndexError") (fun r => Except.ok (some r))
    else if strContains log "ImagePull" then
      (SAMPLE_ISSUES.get? 1).elim (Except.error "IndexError") (fun r => Except.ok (some r))
    else if strContains log "OOMKilled" then
      (SAMPLE_ISSUES.get? 2).elim (Except.error "IndexError") (fun r => Except.ok (some r))
    else if strContains log "NetworkPolicy" then
      (SAMPLE_ISSUES.get? 3).elim (Except.error "IndexError") (fun r => Except.ok (some r))
    else if strContains log "Unschedulable" then
      (SAMPLE_ISSUES.get? 4).elim (Except.error "IndexError") (fun r => Except.ok (some r))
    else scan_logsE rest

/-- `diagnose_issues` with every fallible primitive (list subscripts and
`random.choice`) made explicit, exhibiting each place the Python handler
could in principle raise. -/
def diagnose_issuesE (request : DiagnoseRequest)
    (rand : Fin SAMPLE_ISSUES.length) : Except String IssueRecord :=
  match (if request.logs.isEmpty then Except.ok none
         else scan_logsE request.logs) with
  | Except.error e => Except.error e
  | Except.ok (some r) => Except.ok r
  | Except.ok none => random_choiceE SAMPLE_ISSUES rand.val

/-- The spec-side per-line check computes as the `if`/`elif` chain of
the source. -/
lemma spec_line_match_eq (log : String) :
    spec_line_match log =
      if strContains log "CrashLoopBackOff" then some issue_crashloop
      else if strContains log "ImagePull" then some issue_imagepull
      else if strContains log "OOMKilled" then some issue_oomkilled
      else if strContains log "NetworkPolicy" then some issue_netpol
      else if strContains log "Unschedulable" then some issue_unschedulable
      else none := by
  unfold spec_line_match KEYWORD_RECORDS
  cases h1 : strContains log "CrashLoopBackOff" <;>
  cases h2 : strContains log "ImagePull" <;>
  cases h3 : strContains log "OOMKilled" <;>
  cases h4 : strContains log "NetworkPolicy" <;>
  cases h5 : strContains log "Unschedulable" <;>
  simp [List.find?, h1, h2, h3, h4, h5]

lemma spec_first_match_cons (log : String) (rest : List String) :
    spec_first_match (log :: rest) =
      match spec_line_match log with
      | some r => some r
      | none => spec_first_match rest := by
  simp only [spec_first_match, List.findSome?_cons]
  cases spec_line_match log <;> rfl

/-- The loop of the source agrees with the spec's line-major,
keyword-minor description. -/
lemma scan_logs_eq_spec (logs : List String) :
    scan_logs logs = spec_first_match logs := by
  induction logs with
  | nil => rfl
  | cons log rest ih =>
    rw [spec_first_match_cons, spec_line_match_eq, scan_logs]
    cases h1 : strContains log "CrashLoopBackOff" <;>
    cases h2 : strContains log "ImagePull" <;>
    cases h3 : strContains log "OOMKilled" <;>
    cases h4 : strContains log "NetworkPolicy" <;>
    cases h5 : strContains log "Unschedulable" <;>
    simp [h1, h2, h3, h4, h5, ih]

/-- When no line triggers any keyword the loop falls through. -/
lemma scan_logs_none (logs : List String)
    (h : ∀ log ∈ logs, line_matches log = false) : scan_logs logs = none := by
  induction logs with
  | nil => rfl
  | cons log rest ih =>
    have hl := h log (List.mem_cons_self log rest)
    simp only [line_matches, Bool.or_eq_false_iff] at hl
    obtain ⟨⟨⟨⟨h1, h2⟩, h3⟩, h4⟩, h5⟩ := hl
    rw [scan_logs]
    simp only [h1, h2, h3, h4, h5, if_false, Bool.false_eq_true]
    exact ih (fun l hl' => h l (List.mem_cons_of_mem _ hl'))

/-- Whatever the loop returns comes out of the catalog. -/
lemma scan_logs_mem {logs : List String} {r : IssueRecord}
    (h : scan_logs logs = some r) : r ∈ SAMPLE_ISSUES := by
  induction logs with
  | nil => simp [scan_logs] at h
  | cons log rest ih =>
    rw [scan_logs] at h
    split_ifs at h with h1 h2 h3 h4 h5
    · injection h with h'; subst h'; simp [SAMPLE_ISSUES]
    · injection h with h'; subst h'; simp [SAMPLE_ISSUES]
    · injection h with h'; subst h'; simp [SAMPLE_ISSUES]
    · injection h with h'; subst h'; simp [SAMPLE_ISSUES]
    · injection h with h'; subst h'; simp [SAMPLE_ISSUES]
    · exact ih h

/-- The `if request.logs:` guard is redundant with the loop, so the
handler is the loop's result with the random draw as fallback. -/
lemma diagnose_issues_eq (request : DiagnoseRequest)
    (rand : Fin SAMPLE_ISSUES.length) :
    diagnose_issues request rand =
      (scan_logs request.logs).getD (SAMPLE_ISSUES.get rand) := by
  unfold diagnose_issues
  cases hl : request.logs with
  | nil => simp [scan_logs]
  | cons a as => cases hs : scan_logs (a :: as) <;> simp [hs]

/-- `random.choice` on the five-record catalog cannot raise. -/
lemma random_choiceE_ok (rand : Fin SAMPLE_ISSUES.length) :
    random_choiceE SAMPLE_ISSUES rand.val =
      Except.ok (SAMPLE_ISSUES.get rand) := by
  unfold random_choiceE
  rw [Nat.mod_eq_of_lt rand.isLt, List.get?_eq_get rand.isLt]
  rfl

/-- The instrumented loop never reaches an error: every subscript into
the constant catalog is in range. -/
lemma scan_logsE_eq (logs : List String) :
    scan_logsE logs = Except.ok (scan_logs logs) := by
  induction logs with
  | nil => rfl
  | cons log rest ih =>
    rw [scan_logsE, scan_logs]
    split_ifs <;> first | rfl | exact ih

/-- If a line containing `CrashLoopBackOff` occurs strictly before every
line containing any of the other four keywords, the scan stops at the
CrashLoopBackOff record. -/
lemma scan_logs_crashloop (logs : List String) (i : Nat) (hi : i < logs.length)
    (hcl : strContains (logs.get ⟨i, hi⟩) "CrashLoopBackOff" = true)
    (hother : ∀ (j : Nat) (hj : j < logs.length),
        (strContains (logs.get ⟨j, hj⟩) "ImagePull" = true ∨
         strContains (logs.get ⟨j, hj⟩) "OOMKilled" = true ∨
         strContains (logs.get ⟨j, hj⟩) "NetworkPolicy" = true ∨
         strContains (logs.get ⟨j, hj⟩) "Unschedulable" = true) → i < j) :
    scan_logs logs = some issue_crashloop := by
  induction logs generalizing i with
  | nil => exact absurd hi (Nat.not_lt_zero i)
  | cons log rest ih =>
    cases h1 : strContains log "CrashLoopBackOff" with
    | true => rw [scan_logs]; simp [h1]
    | false =>
      cases i with
      | zero =>
        have h0 : strContains log "CrashLoopBackOff" = true := hcl
        rw [h1] at h0
        exact Bool.noConfusion h0
      | succ n =>
        have hin : n < rest.length := Nat.lt_of_succ_lt_succ hi
        have hcl' : strContains (rest.get ⟨n, hin⟩) "CrashLoopBackOff" = true := by
          simpa using hcl
        have hother' : ∀ (j : Nat) (hj : j < rest.length),
            (strContains (rest.get ⟨j, hj⟩) "ImagePull" = true ∨
             strContains (rest.get ⟨j, hj⟩) "OOMKilled" = true ∨
             strContains (rest.get ⟨j, hj⟩) "NetworkPolicy" = true ∨
             strContains (rest.get ⟨j, hj⟩) "Unschedulable" = true) → n < j := by
          intro j hj hk
          have := hother (j + 1) (Nat.succ_lt_succ hj) (by simpa using hk)
          omega
        have h2 : strContains log "ImagePull" = false := by
          cases hb : strContains log "ImagePull"
          · rfl
          · have := hother 0 (Nat.succ_pos _) (Or.inl (by simpa using hb))
            omega
        have h3 : strContains log "OOMKilled" = false := by
          cases hb : strContains log "OOMKilled"
          · rfl
          · have := hother 0 (Nat.succ_pos _) (Or.inr (Or.inl (by simpa using hb)))
            omega
        have h4 : strContains log "NetworkPolicy" = false := by
          cases hb : strContains log "NetworkPolicy"
          · rfl
          · have := hother 0 (Nat.succ_pos _) (Or.inr (Or.inr (Or.inl (by simpa using hb))))
            omega
        have h5 : strContains log "Unschedulable" = false := by
          cases hb : strContains log "Unschedulable"
          · rfl
          · have := hother 0 (Nat.succ_pos _) (Or.inr (Or.inr (Or.inr (by simpa using hb))))
            omega
        rw [scan_logs]
        simp only [h1, h2, h3, h4, h5, if_false, Bool.false_eq_true]
        exact ih n hin hcl' hother'

/-- The instrumented handler always succeeds and agrees with the total
embedding. -/
lemma diagnose_issuesE_eq (request : DiagnoseRequest)
    (rand : Fin SAMPLE_ISSUES.length) :
    diagnose_issuesE request rand =
      Except.ok (diagnose_issues request rand) := by
  unfold diagnose_issuesE diagnose_issues
  cases hl : request.logs with
  | nil => simpa using random_choiceE_ok rand
  | cons a as =>
    rw [scan_logsE_eq]
    cases hs : scan_logs (a :: as) with
    | none => simpa [hs] using random_choiceE_ok rand
    | some r => simp [hs]

/-- C1: `diagnose_issues` scans the log lines in order and, per line,
checks the five trigger keywords in their fixed order by case-sensitive
substring containment, with line-major, keyword-minor precedence and
first match winning (the loop refines the spec's first-line/first-keyword
description); in particular a line containing `CrashLoopBackOff` that
occurs before any line containing another keyword yields the
CrashLoopBackOff record. -/
theorem claim_C1_scan_order :
    (∀ logs : List String, scan_logs logs = spec_first_match logs) ∧
    (∀ (request : DiagnoseRequest) (rand : Fin SAMPLE_ISSUES.length)
       (i : Nat) (hi : i < request.logs.length),
       strContains (request.logs.get ⟨i, hi⟩) "CrashLoopBackOff" = true →
       (∀ (j : Nat) (hj : j < request.logs.length),
          (strContains (request.logs.get ⟨j, hj⟩) "ImagePull" = true ∨
           strContains (request.logs.get ⟨j, hj⟩) "OOMKilled" = true ∨
           strContains (request.logs.get ⟨j, hj⟩) "NetworkPolicy" = true ∨
           strContains (request.logs.get ⟨j, hj⟩) "Unschedulable" = true) →
          i < j) →
       diagnose_issues request rand = issue_crashloop) := by
  constructor
  · exact scan_logs_eq_spec
  · intro request rand i hi hcl hother
    rw [diagnose_issues_eq, scan_logs_crashloop request.logs i hi hcl hother]
    rfl

/-- Witness for C1 at a concrete request: the CrashLoopBackOff line
precedes the ImagePull line, so the CrashLoopBackOff record wins. -/
theorem claim_C1_witness :
    diagnose_issues
      { logs := ["pod status CrashLoopBackOff", "error ImagePull failed"] }
      ⟨3, by decide⟩ = issue_crashloop :=
  claim_C1_scan_order.2 _ _ 0 (by decide) (by decide) (by decide)

/-- C2: when no log line contains any trigger keyword (the empty log
list included), the result is drawn from the catalog by the uniform
random source: every outcome of the source yields a catalog record, each
of the five records is hit by exactly one of the five equally likely
outcomes, and there are exactly five outcomes — so no sixth value can be
returned and the selection is uniform. -/
theorem claim_C2_uniform_random (request : DiagnoseRequest)
    (hnm : ∀ log ∈ request.logs, line_matches log = false) :
    (∀ rand, diagnose_issues request rand ∈ SAMPLE_ISSUES) ∧
    (∀ r ∈ SAMPLE_ISSUES,
      (Finset.univ.filter
        (fun rand => diagnose_issues request rand = r)).card = 1) ∧
    (Finset.univ : Finset (Fin SAMPLE_ISSUES.length)).card = 5 := by
  have hscan : scan_logs request.logs = none := scan_logs_none _ hnm
  have hdiag : ∀ rand, diagnose_issues request rand = SAMPLE_ISSUES.get rand := by
    intro rand
    rw [diagnose_issues_eq, hscan]
    rfl
  refine ⟨fun rand => ?_, fun r hr => ?_, by decide⟩
  · rw [hdiag]
    exact List.get_mem _ _ _
  · obtain ⟨k, hk⟩ := List.mem_iff_get.mp hr
    have hnd : SAMPLE_ISSUES.Nodup := by decide
    have hfil : (Finset.univ.filter
        (fun rand => diagnose_issues request rand = r)) = {k} := by
      ext x
      simp only [Finset.mem_filter, Finset.mem_univ, true_and,
        Finset.mem_singleton, hdiag x]
      constructor
      · intro hx
        exact hnd.get_inj_iff.mp (hx.trans hk.symm)
      · rintro rfl
        exact hk
    rw [hfil, Finset.card_singleton]

/-- Witness for C2 at the empty log list: the result lands in the
catalog, and exactly one of the five outcomes yields the
NetworkPolicyBlocked record. -/
theorem claim_C2_witness :
    diagnose_issues { logs := [] } ⟨2, by decide⟩ ∈ SAMPLE_ISSUES ∧
    (Finset.univ.filter
      (fun rand => diagnose_issues { logs := [] } rand = issue_netpol)).card
      = 1 := by
  have h := claim_C2_uniform_random { logs := [] }
    (fun log hlog => absurd hlog (List.not_mem_nil log))
  exact ⟨h.1 ⟨2, by decide⟩, h.2.1 issue_netpol (by simp [SAMPLE_ISSUES])⟩

/-- C4: on `logs = ["some text OOMKilled here"]`, whatever the
namespace, context and random outcome, `diagnose_issues` returns the
OOMKilled record, whose confidence is 0.95 and whose severity is
`"critical"`. -/
theorem claim_C4_oomkilled (ns : Option String)
    (ctx : Option (List (String × Json))) (rand : Fin SAMPLE_ISSUES.length) :
    diagnose_issues
      { logs := ["some text OOMKilled here"], «namespace» := ns, context := ctx }
      rand = issue_oomkilled ∧
    issue_oomkilled.confidence = 0.95 ∧
    issue_oomkilled.details.severity = "critical" :=
  ⟨rfl, rfl, rfl⟩

/-- C5: a request body that fails schema validation — in particular an
object missing the required `logs` field — is answered with a structured
4xx validation error and never with a 2xx success carrying substituted
data; the decoder rejects the body before `diagnose_issues` runs. -/
theorem claim_C5_validation :
    (∀ (body : Json) (rand : Fin SAMPLE_ISSUES.length),
      (∃ e, parse_diagnose_request body = Except.error e) →
      (∃ e, handle_diagnose body rand = HttpResult.validationError e) ∧
      ∀ r, handle_diagnose body rand ≠ HttpResult.success r) ∧
    (∀ fields : List (String × Json), fields.lookup "logs" = none →
      parse_diagnose_request (Json.obj fields) =
        Except.error "field required: logs") := by
  constructor
  · rintro body rand ⟨e, he⟩
    refine ⟨⟨e, by simp [handle_diagnose, he]⟩, fun r h => ?_⟩
    simp [handle_diagnose, he] at h
  · intro fields h
    simp [parse_diagnose_request, h]

/-- Witness for C5 at a concrete body with no `logs` field: the
exchange produces a validation error and no success. -/
theorem claim_C5_witness :
    (∃ e, handle_diagnose (Json.obj [("namespace", Json.str "prod")])
      ⟨0, by decide⟩ = HttpResult.validationError e) ∧
    ∀ r, handle_diagnose (Json.obj [("namespace", Json.str "prod")])
      ⟨0, by decide⟩ ≠ HttpResult.success r :=
  claim_C5_validation.1 _ _ ⟨"field required: logs",
    claim_C5_validation.2 [("namespace", Json.str "prod")] rfl⟩

/-- C6: the core logic is total — with every fallible primitive (catalog
subscripts, `random.choice`) made explicit, `diagnose_issues` succeeds on
every schema-valid request and every random outcome; `root`,
`health_check` and `get_issues` are constant functions with no failure
modes. -/
theorem claim_C6_totality :
    (∀ (request : DiagnoseRequest) (rand : Fin SAMPLE_ISSUES.length),
      diagnose_issuesE request rand =
        Except.ok (diagnose_issues request rand)) ∧
    (∀ u : Unit, root u = { message := "AutoKube AI Backend is running" }) ∧
    (∀ u : Unit, health_check u = { status := "healthy", version := "1.0.0" }) ∧
    (∀ u : Unit, get_issues u = get_issues ()) :=
  ⟨diagnose_issuesE_eq, fun _ => rfl, fun _ => rfl, fun _ => rfl⟩

/-- C7: `health_check` takes no input and always returns exactly
`{status := "healthy", version := "1.0.0"}`; any two invocations return
equal results. -/
theorem claim_C7_health :
    (∀ u : Unit, health_check u = { status := "healthy", version := "1.0.0" }) ∧
    (∀ u v : Unit, health_check u = health_check v) :=
  ⟨fun _ => rfl, fun _ _ => rfl⟩

/-- C8: `get_issues` unconditionally returns exactly three historical
entries, in fixed order with ids `issue-001`, `issue-002`, `issue-003`,
and the returned value is identical across repeated calls. -/
theorem claim_C8_issues :
    (get_issues ()).issues.length = 3 ∧
    (get_issues ()).issues.map HistoricalIssueEntry.id =
      ["issue-001", "issue-002", "issue-003"] ∧
    (∀ u v : Unit, get_issues u = get_issues v) :=
  ⟨rfl, rfl, fun _ _ => rfl⟩

/-- C9: the response of `diagnose_issues` depends only on the `logs`
field and the random outcome — two schema-valid requests with equal
`logs` receive equal responses whatever their `namespace` and `context`
fields. -/
theorem claim_C9_noninterference (r₁ r₂ : DiagnoseRequest)
    (rand : Fin SAMPLE_ISSUES.length) (h : r₁.logs = r₂.logs) :
    diagnose_issues r₁ rand = diagnose_issues r₂ rand := by
  rw [diagnose_issues_eq, diagnose_issues_eq, h]

/-- Witness for C9: two requests with the same logs but different
namespace and context receive the same response. -/
theorem claim_C9_witness :
    diagnose_issues
      { logs := ["x OOMKilled y"], «namespace» := some "prod",
        context := some [("k", Json.str "v")] } ⟨0, by decide⟩ =
    diagnose_issues
      { logs := ["x OOMKilled y"], «namespace» := none, context := none }
      ⟨0, by decide⟩ :=
  claim_C9_noninterference _ _ _ rfl

/-- C10: on every request and random outcome the returned value is
field-for-field one of the five records of the immutable catalog
`SAMPLE_ISSUES`, and every catalog record has confidence in [0,1] and
severity among low/medium/high/critical. -/
theorem claim_C10_catalog :
    (∀ (request : DiagnoseRequest) (rand : Fin SAMPLE_ISSUES.length),
      diagnose_issues request rand ∈ SAMPLE_ISSUES) ∧
    (∀ r ∈ SAMPLE_ISSUES,
      0 ≤ r.confidence ∧ r.confidence ≤ 1 ∧
      r.details.severity ∈ (["low", "medium", "high", "critical"] : List String)) := by
  constructor
  · intro request rand
    rw [diagnose_issues_eq]
    cases hs : scan_logs request.logs with
    | some r => exact scan_logs_mem hs
    | none => exact List.get_mem _ _ _
  · intro r hr
    simp only [SAMPLE_ISSUES, List.mem_cons, List.not_mem_nil, or_false] at hr
    rcases hr with rfl | rfl | rfl | rfl | rfl <;>
      exact ⟨by norm_num [issue_crashloop, issue_imagepull, issue_oomkilled,
               issue_netpol, issue_unschedulable],
             by norm_num [issue_crashloop, issue_imagepull, issue_oomkilled,
               issue_netpol, issue_unschedulable],
             by decide⟩

/-- Witness for C10: a keywordless request lands in the catalog, and the
OOMKilled record satisfies the range constraints. -/
theorem claim_C10_witness :
    diagnose_issues { logs := ["nothing to see"] } ⟨4, by decide⟩ ∈ SAMPLE_ISSUES ∧
    (0 ≤ issue_oomkilled.confidence ∧ issue_oomkilled.confidence ≤ 1 ∧
      issue_oomkilled.details.severity ∈
        (["low", "medium", "high", "critical"] : List String)) :=
  ⟨claim_C10_catalog.1 _ _, claim_C10_catalog.2 issue_oomkilled (by simp [SAMPLE_ISSUES])⟩
